import Mathlib

set_option maxRecDepth 8000

/- Shallow embedding of the Freezer X controller firmware (src/code/src/main.cpp).

   Conventions of the embedding:
   - Times are milliseconds as unbounded naturals; every place the firmware
     performs uint32 arithmetic on them is modelled with an explicit reduction
     modulo 2^32 (the constant U32 below).
   - Temperatures are modelled as rationals: the firmware only ever compares
     them, so the ordered-field structure is what the control logic consumes.
     The 10-sample averaging of read_sensors is abstracted by handing the tick
     the two averaged readings as inputs.
   - The mutable globals of main.cpp (timers, current_state, startup latch,
     logging flag) are gathered into an explicit Machine record; update_state
     becomes a function from Machine and the tick inputs to Machine.
   - The infinite halt() loop (main.cpp:699) is modelled as a terminal state:
     a Machine with halted = true is left unchanged by every further tick. -/

def U32 : ℕ := 4294967296

/-- Unsigned 32-bit difference now - t, exactly as the firmware computes
millis() - timestamp on wrapped uint32 counters. -/
def millis_diff (now t : ℕ) : ℕ :=
  (now % U32 + U32 - t % U32) % U32

/-- Status enum of main.cpp:122. -/
inductive freezer_status
  | off
  | cooling
  | reached_target
  | dead_time
  | compressor_max_runtime
  | startup_delay
  | overheat
deriving DecidableEq, Repr

/-- Persisted configuration, main.cpp:106. The int16_t duration fields are
modelled as naturals; the menu clamping keeps them inside positive ranges. -/
structure freezer_config where
  target_temperature : ℚ
  target_temperature_hysteresis_time : ℕ
  compressor_dead_time : ℕ
  compressor_max_run_time : ℕ
  compressor_max_temp : ℚ
  freezer_startup_delay : ℕ
deriving DecidableEq, Repr

/-- Default configuration values from the initializers in main.cpp:106. -/
def default_config : freezer_config :=
  { target_temperature := -18
    target_temperature_hysteresis_time := 60
    compressor_dead_time := 5
    compressor_max_run_time := 300
    compressor_max_temp := 45
    freezer_startup_delay := 2 }

/-- Transient control state, main.cpp:156. -/
structure freezer_state where
  current_ntc1_temperature : ℚ
  current_ntc2_temperature : ℚ
  target_compressor_state : Bool
  actual_compressor_state : Bool
  status : freezer_status
deriving DecidableEq, Repr

/-- The global mutable context of the state machine: configuration, control
state, the four timer globals of main.cpp:220, the startup latch, the halted
flag (terminal halt() state), and the Record Log bookkeeping. log_count counts
the records handed to the Record Log by log_state. -/
structure Machine where
  config : freezer_config
  state : freezer_state
  compressor_turned_on_at : ℕ
  compressor_turned_off_at : ℕ
  reached_target_temperature_at : ℕ
  exceeded_max_runtime_at : ℕ
  startup_delay_over : Bool
  halted : Bool
  logging_enabled : Bool
  log_count : ℕ
deriving DecidableEq, Repr

/-- main.cpp:528. -/
def is_compressor_overheating (m : Machine) : Bool :=
  decide (m.state.current_ntc2_temperature ≥ m.config.compressor_max_temp)

/-- main.cpp:533. -/
def is_startup_delay_over (m : Machine) (now : ℕ) : Bool :=
  decide (now % U32 ≥ (m.config.freezer_startup_delay * 60 * 1000) % U32)

/-- main.cpp:538. -/
def is_compressor_on (m : Machine) : Bool :=
  m.state.actual_compressor_state

/-- main.cpp:543. -/
def is_within_target_temperature (m : Machine) : Bool :=
  decide (m.state.current_ntc1_temperature ≤ m.config.target_temperature)

/-- main.cpp:549. -/
def has_hysteresis_time_elapsed (m : Machine) (now : ℕ) : Bool :=
  decide (millis_diff now m.reached_target_temperature_at ≥
    (m.config.target_temperature_hysteresis_time * 1000) % U32)

/-- main.cpp:583. compressor_turned_off_at = 0 is the unset sentinel and makes
the dead time count as already elapsed. -/
def has_dead_time_elapsed (m : Machine) (now : ℕ) : Bool :=
  if m.compressor_turned_off_at = 0 then true
  else decide (millis_diff now m.compressor_turned_off_at ≥
    (m.config.compressor_dead_time * 1000 * 60) % U32)

/-- main.cpp:554. The source mutates exceeded_max_runtime_at; the model
returns the pair of the boolean result and the new value of that global. -/
def has_compressor_exceeded_max_runtime (m : Machine) (now : ℕ) : Bool × ℕ :=
  if m.exceeded_max_runtime_at > 0 then
    if has_dead_time_elapsed m now then (false, 0)
    else (true, m.exceeded_max_runtime_at)
  else
    if is_compressor_on m &&
        decide (millis_diff now m.compressor_turned_on_at ≥
          (m.config.compressor_max_run_time * 1000 * 60) % U32) then
      (true, now)
    else (false, 0)

/-- main.cpp:730. Edge-triggered actuation: the hardware write and the timer
updates happen only when the requested state differs from the actual one. -/
def set_compressor (m : Machine) (now : ℕ) (s : Bool) : Machine :=
  if s ≠ m.state.actual_compressor_state then
    if s then
      { m with compressor_turned_on_at := now, compressor_turned_off_at := 0,
               state.actual_compressor_state := true }
    else
      { m with compressor_turned_off_at := now, compressor_turned_on_at := 0,
               state.actual_compressor_state := false }
  else m

/-- main.cpp:1069. log_state constructs the record and hands it to
save_data_point; the model counts the handed-over records. It is a no-op when
logging is disabled. -/
def log_state (m : Machine) : Machine :=
  if m.logging_enabled then { m with log_count := m.log_count + 1 } else m

/-- read_sensors (main.cpp:672), abstracted to storing the two averaged
readings. -/
def sensed (m : Machine) (t1 t2 : ℚ) : Machine :=
  { m with state.current_ntc1_temperature := t1,
           state.current_ntc2_temperature := t2 }

/-- Base decision making block of update_state, main.cpp:616 to 640:
target evaluation with the target-reached timer and hysteresis. -/
def base_decision (m : Machine) (now : ℕ) : Machine :=
  if is_within_target_temperature m then
    let m1 := if m.reached_target_temperature_at = 0
      then { m with reached_target_temperature_at := now } else m
    if has_hysteresis_time_elapsed m1 now then
      { m1 with state.target_compressor_state := false,
                state.status := freezer_status.reached_target }
    else
      { m1 with state.target_compressor_state := true,
                state.status := freezer_status.cooling }
  else
    { m with reached_target_temperature_at := 0,
             state.target_compressor_state := true,
             state.status := freezer_status.cooling }

/-- Override block of update_state, main.cpp:642 to 664. Returns the machine
(status and exceeded_max_runtime_at possibly updated) together with the
override flag. The whole block is skipped when the commanded state is off. -/
def override_eval (m : Machine) (now : ℕ) : Machine × Bool :=
  if m.state.target_compressor_state then
    if is_compressor_overheating m then
      ({ m with state.status := freezer_status.overheat }, true)
    else
      let r := has_compressor_exceeded_max_runtime m now
      let m1 := { m with exceeded_max_runtime_at := r.2 }
      if r.1 then
        ({ m1 with state.status := freezer_status.compressor_max_runtime }, true)
      else if !is_compressor_on m1 && !has_dead_time_elapsed m1 now then
        ({ m1 with state.status := freezer_status.dead_time }, true)
      else (m1, false)
  else (m, false)

/-- update_state, main.cpp:593. Sensor validation (main.cpp:713) runs first
and on an out-of-range reading performs halt() (main.cpp:699): compressor
forced off, terminal halted state, and no record is logged on that path. The
startup gate branch and the normal branch each log exactly one record. -/
def update_state (m0 : Machine) (now : ℕ) (t1 t2 : ℚ) : Machine :=
  let m := sensed m0 t1 t2
  if t1 < -100 ∨ t1 > 100 ∨ t2 > 100 then
    let mh := set_compressor m now false
    { mh with halted := true }
  else if !m.startup_delay_over then
    log_state { m with startup_delay_over := is_startup_delay_over m now,
                       state.status := freezer_status.startup_delay }
  else
    let m1 := base_decision m now
    let r := override_eval m1 now
    log_state (set_compressor r.1 now (r.1.state.target_compressor_state && !r.2))

/-- One pass of the 1 Hz control tick from loop() (main.cpp:347). A halted
machine never runs update_state again: halt() is an infinite loop. -/
def tick (m : Machine) (now : ℕ) (t1 t2 : ℚ) : Machine :=
  if m.halted then m else update_state m now t1 t2

/-- Iterated ticks over a list of (time, reading, reading) inputs. -/
def run (m : Machine) (l : List (ℕ × ℚ × ℚ)) : Machine :=
  l.foldl (fun acc p => tick acc p.1 p.2.1 p.2.2) m

/-- Negation of the halt condition of validate_temperatures (main.cpp:713). -/
def temps_valid (t1 t2 : ℚ) : Prop :=
  -100 ≤ t1 ∧ t1 ≤ 100 ∧ t2 ≤ 100

instance (t1 t2 : ℚ) : Decidable (temps_valid t1 t2) := by
  unfold temps_valid; infer_instance

/-- One shift-xor round of calculate_crc8 (main.cpp:1053 to 1062), on the
uint8 crc register: shift left, truncate to 8 bits, xor the polynomial 0x07
when the top bit was set. -/
def crc8_round (c : ℕ) : ℕ :=
  if c &&& 0x80 ≠ 0 then ((c <<< 1) ^^^ 0x07) % 256 else (c <<< 1) % 256

/-- Per-byte step of calculate_crc8 (main.cpp:1049 to 1063): xor the data byte
into the register, then eight shift-xor rounds. -/
def crc8_step (c b : ℕ) : ℕ := (crc8_round^[8]) (c ^^^ b)

/-- calculate_crc8, main.cpp:1045: CRC-8, polynomial 0x07, MSB first, zero
initial value, over the byte span. -/
def calculate_crc8 (data : List ℕ) : ℕ := data.foldl crc8_step 0

/-- Left inverse of crc8_round on bytes, used to show the round is injective. -/
def crc8_round_inv (y : ℕ) : ℕ :=
  if y % 2 = 1 then ((y ^^^ 0x07) + 256) / 2 else y / 2

/-- Metadata sector layout of the record log, main.cpp:1093: a uint32 record
count and the CRC-8 of its four bytes. -/
structure sd_count_sector where
  count : ℕ
  crc : ℕ
deriving DecidableEq, Repr

/-- The four bytes of a uint32 count as laid out in AVR memory (little
endian), the span over which save_data_point computes the metadata CRC. -/
def count_bytes (c : ℕ) : List ℕ :=
  [c % 256, c / 2 ^ 8 % 256, c / 2 ^ 16 % 256, c / 2 ^ 24 % 256]

/-- Checksum of a stored count, calculate_crc8 over its four bytes. -/
def count_crc (c : ℕ) : ℕ := calculate_crc8 (count_bytes c)

/-- A block write issued by save_data_point: either a metadata sector or the
record block. -/
inductive sd_write
  | meta : ℕ → sd_count_sector → sd_write
  | record : ℕ → sd_write
deriving DecidableEq, Repr

/-- The arbitration save_data_point applies when the two metadata counts
disagree (main.cpp:1118 to 1135): the side whose stored crc matches its own
count wins, block 0 preferred when neither matches. -/
def metadata_winner (s0 s1 : sd_count_sector) : sd_count_sector :=
  if s0.crc = count_crc s0.count then s0
  else if s1.crc = count_crc s1.count then s1
  else s0

/-- Write plan of save_data_point (main.cpp:1099) on the success path, given
the two metadata sectors read from blocks 0 and 1: the heal write to block 1
(issued only when the counts disagree, carrying the in-memory copy of sector 1
after the arbitration), then the incremented count with recomputed crc to both
metadata blocks, then the record at block new count + 2 (uint32 arithmetic). -/
def save_data_point (s0 s1 : sd_count_sector) : List sd_write :=
  let p :=
    if s0.count ≠ s1.count then
      if s0.crc = count_crc s0.count then (s0, s0, true)
      else if s1.crc = count_crc s1.count then (s1, s1, true)
      else (s0, s0, true)
    else (s0, s1, false)
  let new_count := (p.1.count + 1) % U32
  let new_sector : sd_count_sector := { count := new_count, crc := count_crc new_count }
  (if p.2.2 then [sd_write.meta 1 p.2.1] else []) ++
  [sd_write.meta 0 new_sector, sd_write.meta 1 new_sector,
   sd_write.record ((new_count + 2) % U32)]

/-- Busy wait of the transport layer, wait_card_busy (main.cpp:1315): poll
bytes until an idle 0xFF arrives (card not busy, result true) or the 300 ms
timeout expires (result false). stream i is the i-th polled byte, times i the
millis() value observed right after reading it; fuel bounds the modelled
unrolling and none means the fuel ran out before either exit was taken. -/
def wait_card_busy (stream times : ℕ → ℕ) (start : ℕ) : ℕ → ℕ → Option Bool
  | _, 0 => none
  | i, fuel + 1 =>
    if stream i = 0xFF then some true
    else if millis_diff (times i) start > 300 then some false
    else wait_card_busy stream times start (i + 1) fuel

/-- The fixed 6-byte command frame of send_card_command (main.cpp:1281 to
1288): framing byte 0x40 or-ed with the command index, four big-endian
argument bytes, caller-supplied crc byte. -/
def command_frame (cmd arg crc : ℕ) : List ℕ :=
  [(0x40 ||| cmd) % 256, (arg >>> 24) % 256, (arg >>> 16) % 256,
   (arg >>> 8) % 256, arg % 256, crc % 256]

/-- send_card_command, main.cpp:1268. The source function returns void: it
runs wait_card_busy but discards its result, then emits the 6-byte frame
unconditionally. The first component reifies the discarded busy-wait result,
the second is the byte sequence put on the wire. -/
def send_card_command (cmd arg crc : ℕ) (stream times : ℕ → ℕ)
    (start fuel : ℕ) : Option Bool × List ℕ :=
  (wait_card_busy stream times start 0 fuel, command_frame cmd arg crc)

/-- Data-token wait of read_card_block, main.cpp:1357: the loop
while transfer is not 0xFE, which has no timeout. The model returns the index
of the first 0xFE within fuel polls, none when fuel runs out first; the source
loop terminates exactly when some fuel suffices. -/
def read_block_token_poll (stream : ℕ → ℕ) : ℕ → ℕ → Option ℕ
  | _, 0 => none
  | i, fuel + 1 =>
    if stream i = 0xFE then some i
    else read_block_token_poll stream (i + 1) fuel

/-- Busy wait after the data block in write_card_block, main.cpp:1435: the
loop while transfer equals 0x00, which has no timeout. Same fuel convention as
read_block_token_poll. -/
def write_block_busy_poll (stream : ℕ → ℕ) : ℕ → ℕ → Option ℕ
  | _, 0 => none
  | i, fuel + 1 =>
    if stream i = 0x00 then write_block_busy_poll stream (i + 1) fuel
    else some i

theorem set_compressor_actual (m : Machine) (now : ℕ) (s : Bool) :
    (set_compressor m now s).state.actual_compressor_state = s := by
  simp only [set_compressor]
  split_ifs with h1 h2
  · simp [h2]
  · simp only [Bool.not_eq_true] at h2
    simp [h2]
  · simp only [ne_eq, not_not] at h1
    exact h1.symm

theorem set_compressor_status (m : Machine) (now : ℕ) (s : Bool) :
    (set_compressor m now s).state.status = m.state.status := by
  simp only [set_compressor]; split_ifs <;> rfl

theorem set_compressor_target (m : Machine) (now : ℕ) (s : Bool) :
    (set_compressor m now s).state.target_compressor_state
      = m.state.target_compressor_state := by
  simp only [set_compressor]; split_ifs <;> rfl

theorem set_compressor_log (m : Machine) (now : ℕ) (s : Bool) :
    (set_compressor m now s).log_count = m.log_count := by
  simp only [set_compressor]; split_ifs <;> rfl

theorem set_compressor_logging (m : Machine) (now : ℕ) (s : Bool) :
    (set_compressor m now s).logging_enabled = m.logging_enabled := by
  simp only [set_compressor]; split_ifs <;> rfl

theorem set_compressor_exceeded (m : Machine) (now : ℕ) (s : Bool) :
    (set_compressor m now s).exceeded_max_runtime_at = m.exceeded_max_runtime_at := by
  simp only [set_compressor]; split_ifs <;> rfl

theorem set_compressor_noop_off (m : Machine) (now : ℕ)
    (h : m.state.actual_compressor_state = false) :
    set_compressor m now false = m := by
  simp [set_compressor, h]

theorem set_compressor_turn_on (m : Machine) (now : ℕ)
    (h : m.state.actual_compressor_state = false) :
    set_compressor m now true =
      { m with compressor_turned_on_at := now, compressor_turned_off_at := 0,
               state.actual_compressor_state := true } := by
  simp [set_compressor, h]

theorem set_compressor_turn_off (m : Machine) (now : ℕ)
    (h : m.state.actual_compressor_state = true) :
    set_compressor m now false =
      { m with compressor_turned_off_at := now, compressor_turned_on_at := 0,
               state.actual_compressor_state := false } := by
  simp [set_compressor, h]

theorem log_state_log (m : Machine) (h : m.logging_enabled = true) :
    (log_state m).log_count = m.log_count + 1 := by
  simp [log_state, h]

theorem log_state_actual (m : Machine) :
    (log_state m).state.actual_compressor_state = m.state.actual_compressor_state := by
  simp only [log_state]; split_ifs <;> rfl

theorem log_state_status (m : Machine) :
    (log_state m).state.status = m.state.status := by
  simp only [log_state]; split_ifs <;> rfl

theorem log_state_target (m : Machine) :
    (log_state m).state.target_compressor_state = m.state.target_compressor_state := by
  simp only [log_state]; split_ifs <;> rfl

theorem log_state_exceeded (m : Machine) :
    (log_state m).exceeded_max_runtime_at = m.exceeded_max_runtime_at := by
  simp only [log_state]; split_ifs <;> rfl

theorem log_state_off_at (m : Machine) :
    (log_state m).compressor_turned_off_at = m.compressor_turned_off_at := by
  simp only [log_state]; split_ifs <;> rfl

theorem log_state_on_at (m : Machine) :
    (log_state m).compressor_turned_on_at = m.compressor_turned_on_at := by
  simp only [log_state]; split_ifs <;> rfl

theorem base_decision_actual (m : Machine) (now : ℕ) :
    (base_decision m now).state.actual_compressor_state
      = m.state.actual_compressor_state := by
  simp only [base_decision]; split_ifs <;> rfl

theorem base_decision_on_at (m : Machine) (now : ℕ) :
    (base_decision m now).compressor_turned_on_at = m.compressor_turned_on_at := by
  simp only [base_decision]; split_ifs <;> rfl

theorem base_decision_off_at (m : Machine) (now : ℕ) :
    (base_decision m now).compressor_turned_off_at = m.compressor_turned_off_at := by
  simp only [base_decision]; split_ifs <;> rfl

theorem base_decision_exceeded (m : Machine) (now : ℕ) :
    (base_decision m now).exceeded_max_runtime_at = m.exceeded_max_runtime_at := by
  simp only [base_decision]; split_ifs <;> rfl

theorem base_decision_config (m : Machine) (now : ℕ) :
    (base_decision m now).config = m.config := by
  simp only [base_decision]; split_ifs <;> rfl

theorem base_decision_ntc2 (m : Machine) (now : ℕ) :
    (base_decision m now).state.current_ntc2_temperature
      = m.state.current_ntc2_temperature := by
  simp only [base_decision]; split_ifs <;> rfl

theorem base_decision_logging (m : Machine) (now : ℕ) :
    (base_decision m now).logging_enabled = m.logging_enabled := by
  simp only [base_decision]; split_ifs <;> rfl

theorem base_decision_log (m : Machine) (now : ℕ) :
    (base_decision m now).log_count = m.log_count := by
  simp only [base_decision]; split_ifs <;> rfl

theorem base_decision_status (m : Machine) (now : ℕ) :
    (base_decision m now).state.status = freezer_status.cooling ∨
    (base_decision m now).state.status = freezer_status.reached_target := by
  simp only [base_decision]; split_ifs <;> simp

theorem base_decision_not_within (m : Machine) (now : ℕ)
    (h : is_within_target_temperature m = false) :
    base_decision m now =
      { m with reached_target_temperature_at := 0,
               state.target_compressor_state := true,
               state.status := freezer_status.cooling } := by
  simp [base_decision, h]

theorem override_eval_target (m : Machine) (now : ℕ) :
    (override_eval m now).1.state.target_compressor_state
      = m.state.target_compressor_state := by
  simp only [override_eval]; split_ifs <;> rfl

theorem override_eval_actual (m : Machine) (now : ℕ) :
    (override_eval m now).1.state.actual_compressor_state
      = m.state.actual_compressor_state := by
  simp only [override_eval]; split_ifs <;> rfl

theorem override_eval_off_at (m : Machine) (now : ℕ) :
    (override_eval m now).1.compressor_turned_off_at = m.compressor_turned_off_at := by
  simp only [override_eval]; split_ifs <;> rfl

theorem override_eval_on_at (m : Machine) (now : ℕ) :
    (override_eval m now).1.compressor_turned_on_at = m.compressor_turned_on_at := by
  simp only [override_eval]; split_ifs <;> rfl

theorem override_eval_logging (m : Machine) (now : ℕ) :
    (override_eval m now).1.logging_enabled = m.logging_enabled := by
  simp only [override_eval]; split_ifs <;> rfl

theorem override_eval_log (m : Machine) (now : ℕ) :
    (override_eval m now).1.log_count = m.log_count := by
  simp only [override_eval]; split_ifs <;> rfl

theorem override_eval_not_target (m : Machine) (now : ℕ)
    (h : m.state.target_compressor_state = false) :
    override_eval m now = (m, false) := by
  simp [override_eval, h]

theorem has_dead_time_elapsed_congr (m m' : Machine) (now : ℕ)
    (h1 : m.compressor_turned_off_at = m'.compressor_turned_off_at)
    (h2 : m.config = m'.config) :
    has_dead_time_elapsed m now = has_dead_time_elapsed m' now := by
  simp [has_dead_time_elapsed, h1, h2]

theorem tick_not_halted (m : Machine) (now : ℕ) (t1 t2 : ℚ) (h : m.halted = false) :
    tick m now t1 t2 = update_state m now t1 t2 := by
  simp [tick, h]

theorem tick_halted (m : Machine) (now : ℕ) (t1 t2 : ℚ) (h : m.halted = true) :
    tick m now t1 t2 = m := by
  simp [tick, h]

theorem run_halted (m : Machine) (h : m.halted = true) :
    ∀ l : List (ℕ × ℚ × ℚ), run m l = m := by
  intro l
  induction l with
  | nil => rfl
  | cons x xs ih =>
    show run (tick m x.1 x.2.1 x.2.2) xs = m
    rw [tick_halted m x.1 x.2.1 x.2.2 h]
    exact ih

theorem update_state_normal (m : Machine) (now : ℕ) (t1 t2 : ℚ)
    (hv : temps_valid t1 t2) (hs : m.startup_delay_over = true) :
    update_state m now t1 t2 =
      log_state (set_compressor (override_eval (base_decision (sensed m t1 t2) now) now).1 now
        ((override_eval (base_decision (sensed m t1 t2) now) now).1.state.target_compressor_state &&
         !(override_eval (base_decision (sensed m t1 t2) now) now).2)) := by
  obtain ⟨h1, h2, h3⟩ := hv
  have hA : ¬(t1 < -100 ∨ t1 > 100 ∨ t2 > 100) := by
    push_neg
    exact ⟨h1, h2, h3⟩
  have hB : (sensed m t1 t2).startup_delay_over = true := hs
  simp only [update_state, hA, if_false, hB, Bool.not_true, Bool.false_eq_true,
    if_neg, ite_false]

theorem update_state_halt (m : Machine) (now : ℕ) (t1 t2 : ℚ)
    (hf : t1 < -100 ∨ t1 > 100 ∨ t2 > 100) :
    update_state m now t1 t2 =
      { set_compressor (sensed m t1 t2) now false with halted := true } := by
  simp only [update_state, hf, if_true, ite_true]

theorem update_state_startup (m : Machine) (now : ℕ) (t1 t2 : ℚ)
    (hv : temps_valid t1 t2) (hs : m.startup_delay_over = false) :
    update_state m now t1 t2 =
      log_state { sensed m t1 t2 with
                    startup_delay_over := is_startup_delay_over (sensed m t1 t2) now,
                    state.status := freezer_status.startup_delay } := by
  obtain ⟨h1, h2, h3⟩ := hv
  have hA : ¬(t1 < -100 ∨ t1 > 100 ∨ t2 > 100) := by
    push_neg
    exact ⟨h1, h2, h3⟩
  have hB : (sensed m t1 t2).startup_delay_over = false := hs
  simp only [update_state, hA, if_false, hB, Bool.not_false, if_neg, ite_true,
    ite_false]

theorem override_eval_overheat (m : Machine) (now : ℕ)
    (ht : m.state.target_compressor_state = true)
    (ho : is_compressor_overheating m = true) :
    override_eval m now = ({ m with state.status := freezer_status.overheat }, true) := by
  simp [override_eval, ht, ho]

theorem override_eval_maxrt_trigger (m : Machine) (now : ℕ)
    (ht : m.state.target_compressor_state = true)
    (ho : is_compressor_overheating m = false)
    (he : m.exceeded_max_runtime_at = 0)
    (hon : m.state.actual_compressor_state = true)
    (hrt : millis_diff now m.compressor_turned_on_at ≥
      (m.config.compressor_max_run_time * 1000 * 60) % U32) :
    override_eval m now =
      ({ m with exceeded_max_runtime_at := now,
                state.status := freezer_status.compressor_max_runtime }, true) := by
  have hr : has_compressor_exceeded_max_runtime m now = (true, now) := by
    simp [has_compressor_exceeded_max_runtime, he, is_compressor_on, hon, hrt]
  simp [override_eval, ht, ho, hr]

theorem override_eval_maxrt_hold (m : Machine) (now : ℕ)
    (ht : m.state.target_compressor_state = true)
    (ho : is_compressor_overheating m = false)
    (he : m.exceeded_max_runtime_at > 0)
    (hd : has_dead_time_elapsed m now = false) :
    override_eval m now =
      ({ m with state.status := freezer_status.compressor_max_runtime }, true) := by
  have hr : has_compressor_exceeded_max_runtime m now = (true, m.exceeded_max_runtime_at) := by
    simp [has_compressor_exceeded_max_runtime, he, hd, Nat.pos_iff_ne_zero]
  simp [override_eval, ht, ho, hr]

theorem override_eval_maxrt_release (m : Machine) (now : ℕ)
    (ht : m.state.target_compressor_state = true)
    (ho : is_compressor_overheating m = false)
    (he : m.exceeded_max_runtime_at > 0)
    (hd : has_dead_time_elapsed m now = true) :
    override_eval m now = ({ m with exceeded_max_runtime_at := 0 }, false) := by
  have hr : has_compressor_exceeded_max_runtime m now = (false, 0) := by
    simp [has_compressor_exceeded_max_runtime, he, hd, Nat.pos_iff_ne_zero]
  have hd1 : has_dead_time_elapsed { m with exceeded_max_runtime_at := 0 } now = true := hd
  simp [override_eval, ht, ho, hr, hd1]

theorem override_eval_no_override (m : Machine) (now : ℕ)
    (ht : m.state.target_compressor_state = true)
    (ho : is_compressor_overheating m = false)
    (he : m.exceeded_max_runtime_at = 0)
    (hrt : (is_compressor_on m &&
        decide (millis_diff now m.compressor_turned_on_at ≥
          (m.config.compressor_max_run_time * 1000 * 60) % U32)) = false)
    (hd : has_dead_time_elapsed m now = true) :
    override_eval m now = ({ m with exceeded_max_runtime_at := 0 }, false) := by
  have hr : has_compressor_exceeded_max_runtime m now = (false, 0) := by
    simp only [has_compressor_exceeded_max_runtime, he]
    simp only [gt_iff_lt, Nat.lt_irrefl, if_false, hrt, ite_false, Bool.false_eq_true]
  have hd1 : has_dead_time_elapsed { m with exceeded_max_runtime_at := 0 } now = true := hd
  simp [override_eval, ht, ho, hr, hd1]

theorem crc8_round_lt (c : ℕ) : crc8_round c < 256 := by
  unfold crc8_round
  split_ifs <;> exact Nat.mod_lt _ (by norm_num)

theorem crc8_round_inv_round : ∀ c : Fin 256, crc8_round_inv (crc8_round c.val) = c.val := by
  decide

theorem crc8_round_inj {a b : ℕ} (ha : a < 256) (hb : b < 256)
    (h : crc8_round a = crc8_round b) : a = b := by
  have h1 := crc8_round_inv_round ⟨a, ha⟩
  have h2 := crc8_round_inv_round ⟨b, hb⟩
  simp only at h1 h2
  rw [← h1, ← h2, h]

theorem crc8_iter_lt (n : ℕ) {c : ℕ} (hc : c < 256) : (crc8_round^[n]) c < 256 := by
  induction n generalizing c with
  | zero => simpa using hc
  | succ k ih =>
    rw [Function.iterate_succ_apply]
    exact ih (crc8_round_lt c)

theorem crc8_iter_inj (n : ℕ) {a b : ℕ} (ha : a < 256) (hb : b < 256)
    (h : (crc8_round^[n]) a = (crc8_round^[n]) b) : a = b := by
  induction n generalizing a b with
  | zero => simpa using h
  | succ k ih =>
    rw [Function.iterate_succ_apply, Function.iterate_succ_apply] at h
    exact crc8_round_inj ha hb (ih (crc8_round_lt a) (crc8_round_lt b) h)

theorem byte_xor_lt {a b : ℕ} (ha : a < 256) (hb : b < 256) : a ^^^ b < 256 := by
  have h : (256:ℕ) = 2 ^ 8 := by norm_num
  rw [h] at ha hb ⊢
  exact Nat.xor_lt_two_pow ha hb

theorem crc8_step_lt {c b : ℕ} (hc : c < 256) (hb : b < 256) : crc8_step c b < 256 :=
  crc8_iter_lt 8 (byte_xor_lt hc hb)

theorem crc8_step_state_inj {s t b : ℕ} (hs : s < 256) (ht : t < 256) (hb : b < 256)
    (h : crc8_step s b = crc8_step t b) : s = t := by
  have h1 := crc8_iter_inj 8 (byte_xor_lt hs hb) (byte_xor_lt ht hb) h
  exact Nat.xor_left_injective h1

theorem crc8_step_byte_inj {s b c : ℕ} (hs : s < 256) (hb : b < 256) (hc : c < 256)
    (h : crc8_step s b = crc8_step s c) : b = c := by
  have h1 := crc8_iter_inj 8 (byte_xor_lt hs hb) (byte_xor_lt hs hc) h
  exact Nat.xor_right_injective h1

theorem crc8_foldl_lt : ∀ (l : List ℕ) (s : ℕ), s < 256 → (∀ b ∈ l, b < 256) →
    l.foldl crc8_step s < 256 := by
  intro l
  induction l with
  | nil => intro s hs _; simpa using hs
  | cons x xs ih =>
    intro s hs hb
    simp only [List.foldl_cons]
    exact ih _ (crc8_step_lt hs (hb x (by simp))) (fun b h => hb b (by simp [h]))

theorem crc8_foldl_inj : ∀ (l : List ℕ) (s t : ℕ), s < 256 → t < 256 →
    (∀ b ∈ l, b < 256) → l.foldl crc8_step s = l.foldl crc8_step t → s = t := by
  intro l
  induction l with
  | nil => intro s t _ _ _ h; simpa using h
  | cons x xs ih =>
    intro s t hs ht hb h
    simp only [List.foldl_cons] at h
    have hx : x < 256 := hb x (by simp)
    have := ih _ _ (crc8_step_lt hs hx) (crc8_step_lt ht hx)
      (fun b h' => hb b (by simp [h'])) h
    exact crc8_step_state_inj hs ht hx this

theorem crc8_foldl_flip_ne : ∀ (l : List ℕ) (i : ℕ) (hi : i < l.length) (v s : ℕ),
    s < 256 → (∀ b ∈ l, b < 256) → v < 256 → v ≠ l.get ⟨i, hi⟩ →
    (l.set i v).foldl crc8_step s ≠ l.foldl crc8_step s := by
  intro l
  induction l with
  | nil => intro i hi; simp at hi
  | cons x xs ih =>
    intro i hi v s hs hb hv hne
    have hx : x < 256 := hb x (by simp)
    cases i with
    | zero =>
      simp only [List.set_cons_zero, List.foldl_cons]
      intro h
      have heq := crc8_foldl_inj xs _ _ (crc8_step_lt hs hv) (crc8_step_lt hs hx)
        (fun b h' => hb b (by simp [h'])) h
      exact hne (by simpa using crc8_step_byte_inj hs hv hx heq)
    | succ j =>
      simp only [List.set_cons_succ, List.foldl_cons]
      have hj : j < xs.length := by simpa using hi
      exact ih j hj v (crc8_step s x) (crc8_step_lt hs hx)
        (fun b h' => hb b (by simp [h'])) hv (by simpa using hne)

theorem wait_card_busy_timeout (stream times : ℕ → ℕ) (start : ℕ)
    (hs : ∀ j, stream j ≠ 0xFF) : ∀ (fuel i : ℕ),
    (∃ j, i ≤ j ∧ j < i + fuel ∧ millis_diff (times j) start > 300) →
    wait_card_busy stream times start i fuel = some false := by
  intro fuel
  induction fuel with
  | zero =>
    intro i h
    obtain ⟨j, h1, h2, _⟩ := h
    omega
  | succ f ih =>
    intro i h
    obtain ⟨j, h1, h2, h3⟩ := h
    simp only [wait_card_busy]
    rw [if_neg (hs i)]
    by_cases hto : millis_diff (times i) start > 300
    · rw [if_pos hto]
    · rw [if_neg hto]
      apply ih
      have hji : j ≠ i := fun he => hto (he ▸ h3)
      exact ⟨j, by omega, by omega, h3⟩

/-- Concrete control state used by the witnesses. -/
def test_state : freezer_state :=
  { current_ntc1_temperature := 0
    current_ntc2_temperature := 0
    target_compressor_state := false
    actual_compressor_state := false
    status := freezer_status.off }

/-- Concrete machine used by the witnesses: default configuration, startup
gate already latched open, logging enabled. -/
def test_machine : Machine :=
  { config := default_config
    state := test_state
    compressor_turned_on_at := 0
    compressor_turned_off_at := 0
    reached_target_temperature_at := 0
    exceeded_max_runtime_at := 0
    startup_delay_over := true
    halted := false
    logging_enabled := true
    log_count := 0 }

/-- C9: calculate_crc8 is the standard CRC-8 (polynomial 0x07, MSB first,
zero initial value): it yields the standard check value 0xF4 on the byte span
of the digits 1 through 9, it is stable on recomputation over the same bytes,
and flipping any single bit of a byte span of length at most 255 changes the
checksum. -/
theorem c9_crc8_standard_and_single_bit :
    calculate_crc8 [0x31, 0x32, 0x33, 0x34, 0x35, 0x36, 0x37, 0x38, 0x39] = 0xF4 ∧
    (∀ data : List ℕ, calculate_crc8 data = calculate_crc8 data) ∧
    (∀ (data : List ℕ) (i k : ℕ) (hi : i < data.length),
      data.length ≤ 255 → (∀ b ∈ data, b < 256) → k < 8 →
      calculate_crc8 (data.set i (data.get ⟨i, hi⟩ ^^^ 2 ^ k)) ≠ calculate_crc8 data) := by
  refine ⟨by decide, fun _ => rfl, ?_⟩
  intro data i k hi _ hb hk
  have hg : data.get ⟨i, hi⟩ < 256 := hb _ (data.get_mem _ hi)
  have hpk : (2 : ℕ) ^ k < 256 := by
    calc (2:ℕ) ^ k < 2 ^ 8 := Nat.pow_lt_pow_right (by norm_num) hk
    _ = 256 := by norm_num
  have hv : data.get ⟨i, hi⟩ ^^^ 2 ^ k < 256 := byte_xor_lt hg hpk
  have hne : data.get ⟨i, hi⟩ ^^^ 2 ^ k ≠ data.get ⟨i, hi⟩ := by
    intro h
    have h0 : data.get ⟨i, hi⟩ ^^^ 2 ^ k = data.get ⟨i, hi⟩ ^^^ 0 := by
      simpa using h
    have := Nat.xor_right_injective h0
    exact absurd this (Nat.pos_iff_ne_zero.mp (Nat.pos_pow_of_pos k (by norm_num)))
  exact crc8_foldl_flip_ne data i hi _ 0 (by norm_num) hb hv hne

theorem c9_crc8_witness :
    calculate_crc8 (([0x00] : List ℕ).set 0 (([0x00] : List ℕ).get ⟨0, by norm_num⟩ ^^^ 2 ^ 0)) ≠
      calculate_crc8 [0x00] :=
  c9_crc8_standard_and_single_bit.2.2 [0x00] 0 0 (by norm_num) (by norm_num)
    (by intro b hb; simp at hb; omega) (by norm_num)

/-- C3: the data-token wait of read_card_block (main.cpp:1357) and the
busy wait of write_card_block (main.cpp:1435) have no timeout: against a
device that keeps the bus at the idle byte 0xFF (respectively keeps signalling
busy with 0x00) they never finish, however much fuel they are given, so these
storage operations neither complete within a bound nor report failure,
contradicting the requirement that the Halted state is the only code path that
may block indefinitely. -/
theorem c3_storage_polls_unbounded :
    (∀ i fuel, read_block_token_poll (fun _ => 0xFF) i fuel = none) ∧
    (∀ i fuel, write_block_busy_poll (fun _ => 0x00) i fuel = none) := by
  constructor
  · intro i fuel
    induction fuel generalizing i with
    | zero => rfl
    | succ f ih =>
      simp only [read_block_token_poll]
      rw [if_neg (by norm_num)]
      exact ih (i + 1)
  · intro i fuel
    induction fuel generalizing i with
    | zero => rfl
    | succ f ih =>
      simp only [write_block_busy_poll]
      simp only [if_true, ite_true]
      exact ih (i + 1)

theorem tick_eval (m : Machine) (now : ℕ) (t1 t2 : ℚ)
    (hh : m.halted = false) (hs : m.startup_delay_over = true) (hv : temps_valid t1 t2) :
    tick m now t1 t2 =
      log_state (set_compressor (override_eval (base_decision (sensed m t1 t2) now) now).1 now
        ((override_eval (base_decision (sensed m t1 t2) now) now).1.state.target_compressor_state &&
         !(override_eval (base_decision (sensed m t1 t2) now) now).2)) := by
  rw [tick_not_halted _ _ _ _ hh]
  exact update_state_normal _ _ _ _ hv hs

theorem base_decision_within_eq (m : Machine) (now : ℕ)
    (h : is_within_target_temperature m = true) :
    base_decision m now =
      (if millis_diff now (if m.reached_target_temperature_at = 0 then now
            else m.reached_target_temperature_at) ≥
          (m.config.target_temperature_hysteresis_time * 1000) % U32 then
        { m with reached_target_temperature_at :=
                   (if m.reached_target_temperature_at = 0 then now
                    else m.reached_target_temperature_at),
                 state.target_compressor_state := false,
                 state.status := freezer_status.reached_target }
      else
        { m with reached_target_temperature_at :=
                   (if m.reached_target_temperature_at = 0 then now
                    else m.reached_target_temperature_at),
                 state.target_compressor_state := true,
                 state.status := freezer_status.cooling }) := by
  by_cases h0 : m.reached_target_temperature_at = 0
  · simp [base_decision, h, h0, has_hysteresis_time_elapsed]
  · simp [base_decision, h, h0, has_hysteresis_time_elapsed]

theorem override_eval_status_ne_dead_time (m : Machine) (now : ℕ)
    (hd : has_dead_time_elapsed m now = true)
    (hstat : m.state.status ≠ freezer_status.dead_time) :
    (override_eval m now).1.state.status ≠ freezer_status.dead_time := by
  have hd1 : ∀ X : ℕ,
      has_dead_time_elapsed { m with exceeded_max_runtime_at := X } now = true :=
    fun _ => hd
  simp only [override_eval]
  split_ifs with h1 h2 h3 h4
  · simp
  · simp
  · rw [hd1] at h4
    simp at h4
  · exact hstat
  · exact hstat

/-- C1: on every non-halted tick with valid sensor readings past the startup
gate, the compressor state handed to set_compressor equals the commanded state
from target evaluation AND NOT the override flag; when the commanded state is
off the override block is skipped entirely (flag stays false and the machine
is untouched by it); consequently the actual output can be on only when the
commanded state is on, so an override can prevent running but never force
it. -/
theorem c1_effective_state_conjunction (m : Machine) (now : ℕ) (t1 t2 : ℚ)
    (hh : m.halted = false) (hs : m.startup_delay_over = true)
    (hv : temps_valid t1 t2) :
    (tick m now t1 t2).state.actual_compressor_state
      = ((base_decision (sensed m t1 t2) now).state.target_compressor_state &&
         !(override_eval (base_decision (sensed m t1 t2) now) now).2) ∧
    ((base_decision (sensed m t1 t2) now).state.target_compressor_state = false →
      override_eval (base_decision (sensed m t1 t2) now) now
        = (base_decision (sensed m t1 t2) now, false)) ∧
    ((tick m now t1 t2).state.actual_compressor_state = true →
      (base_decision (sensed m t1 t2) now).state.target_compressor_state = true) := by
  rw [tick_eval m now t1 t2 hh hs hv]
  refine ⟨?_, ?_, ?_⟩
  · rw [log_state_actual, set_compressor_actual, override_eval_target]
  · intro h
    exact override_eval_not_target _ now h
  · intro h
    rw [log_state_actual, set_compressor_actual] at h
    rcases (Bool.and_eq_true _ _).mp h with ⟨h1, _⟩
    rwa [override_eval_target] at h1

theorem c1_witness :
    (tick test_machine 5000 (-15) 20).state.actual_compressor_state
      = ((base_decision (sensed test_machine (-15) 20) 5000).state.target_compressor_state &&
         !(override_eval (base_decision (sensed test_machine (-15) 20) 5000) 5000).2) ∧
    ((base_decision (sensed test_machine (-15) 20) 5000).state.target_compressor_state = false →
      override_eval (base_decision (sensed test_machine (-15) 20) 5000) 5000
        = (base_decision (sensed test_machine (-15) 20) 5000, false)) ∧
    ((tick test_machine 5000 (-15) 20).state.actual_compressor_state = true →
      (base_decision (sensed test_machine (-15) 20) 5000).state.target_compressor_state = true) :=
  c1_effective_state_conjunction test_machine 5000 (-15) 20 rfl rfl (by decide)

/-- C2: a tick whose primary reading is outside the closed range -100 to 100
degrees, or whose secondary reading is above 100 degrees, forces the
compressor off, enters the terminal halted state, logs nothing on that tick,
and every later tick leaves the machine completely unchanged: no compressor
state change and no log append ever happens afterwards. -/
theorem c2_sensor_fault_halts (m : Machine) (now : ℕ) (t1 t2 : ℚ)
    (hh : m.halted = false) (hf : t1 < -100 ∨ t1 > 100 ∨ t2 > 100) :
    (tick m now t1 t2).halted = true ∧
    (tick m now t1 t2).state.actual_compressor_state = false ∧
    (tick m now t1 t2).log_count = m.log_count ∧
    (∀ l : List (ℕ × ℚ × ℚ), run (tick m now t1 t2) l = tick m now t1 t2) := by
  rw [tick_not_halted m now t1 t2 hh, update_state_halt m now t1 t2 hf]
  refine ⟨rfl, ?_, ?_, ?_⟩
  · show (set_compressor (sensed m t1 t2) now false).state.actual_compressor_state = false
    exact set_compressor_actual _ _ _
  · show (set_compressor (sensed m t1 t2) now false).log_count = m.log_count
    rw [set_compressor_log]
    rfl
  · intro l
    exact run_halted _ rfl l

theorem c2_witness :
    (tick test_machine 1000 150 20).halted = true ∧
    (tick test_machine 1000 150 20).state.actual_compressor_state = false ∧
    (tick test_machine 1000 150 20).log_count = test_machine.log_count ∧
    (∀ l : List (ℕ × ℚ × ℚ), run (tick test_machine 1000 150 20) l
      = tick test_machine 1000 150 20) :=
  c2_sensor_fault_halts test_machine 1000 150 20 rfl (by right; left; decide)

/-- Shorthand for the outcome of the target-evaluation block on a tick whose
reading is above target: timer cleared, commanded on, status Cooling. -/
def cooling_base (m : Machine) : Machine :=
  { m with reached_target_temperature_at := 0,
           state.target_compressor_state := true,
           state.status := freezer_status.cooling }

theorem base_decision_not_within_cb (m : Machine) (now : ℕ)
    (h : is_within_target_temperature m = false) :
    base_decision m now = cooling_base m :=
  base_decision_not_within m now h

theorem set_compressor_false_off_at (m : Machine) (now : ℕ) (s : Bool)
    (hs : s = false) (ha : m.state.actual_compressor_state = true) :
    (set_compressor m now s).compressor_turned_off_at = now := by
  subst hs
  rw [set_compressor_turn_off m now ha]

theorem set_compressor_noop_off_at (m : Machine) (now : ℕ) (s : Bool)
    (hs : s = false) (ha : m.state.actual_compressor_state = false) :
    (set_compressor m now s).compressor_turned_off_at = m.compressor_turned_off_at := by
  subst hs
  rw [set_compressor_noop_off m now ha]

/-- C4: chained max-runtime and dead-time behaviour of the override block,
on ticks where the compressor is commanded on (reading above target) and the
overheat override is not firing. Trigger: with no pending violation, a
compressor that has been on for at least the configured max run time gets
status MaxRuntime, the actual output switched off within that same tick, the
violation timestamp latched, and the off-transition stamped at that tick.
Hold: while the violation is latched and the configured dead time since the
off-transition has not elapsed, status stays MaxRuntime, the output stays off
and the timestamps are unchanged. Release: once the dead time has elapsed the
latch is cleared and normal evaluation resumes (status Cooling, compressor
turned back on). -/
theorem c4_max_runtime_override :
    (∀ (m : Machine) (now : ℕ) (t1 t2 : ℚ),
      m.halted = false → m.startup_delay_over = true → temps_valid t1 t2 →
      t1 > m.config.target_temperature →
      t2 < m.config.compressor_max_temp →
      m.exceeded_max_runtime_at = 0 →
      m.state.actual_compressor_state = true →
      millis_diff now m.compressor_turned_on_at ≥
        (m.config.compressor_max_run_time * 1000 * 60) % U32 →
      (tick m now t1 t2).state.status = freezer_status.compressor_max_runtime ∧
      (tick m now t1 t2).state.actual_compressor_state = false ∧
      (tick m now t1 t2).exceeded_max_runtime_at = now ∧
      (tick m now t1 t2).compressor_turned_off_at = now) ∧
    (∀ (m : Machine) (now : ℕ) (t1 t2 : ℚ),
      m.halted = false → m.startup_delay_over = true → temps_valid t1 t2 →
      t1 > m.config.target_temperature →
      t2 < m.config.compressor_max_temp →
      m.exceeded_max_runtime_at > 0 →
      m.state.actual_compressor_state = false →
      has_dead_time_elapsed m now = false →
      (tick m now t1 t2).state.status = freezer_status.compressor_max_runtime ∧
      (tick m now t1 t2).state.actual_compressor_state = false ∧
      (tick m now t1 t2).exceeded_max_runtime_at = m.exceeded_max_runtime_at ∧
      (tick m now t1 t2).compressor_turned_off_at = m.compressor_turned_off_at) ∧
    (∀ (m : Machine) (now : ℕ) (t1 t2 : ℚ),
      m.halted = false → m.startup_delay_over = true → temps_valid t1 t2 →
      t1 > m.config.target_temperature →
      t2 < m.config.compressor_max_temp →
      m.exceeded_max_runtime_at > 0 →
      m.state.actual_compressor_state = false →
      has_dead_time_elapsed m now = true →
      (tick m now t1 t2).state.status = freezer_status.cooling ∧
      (tick m now t1 t2).state.actual_compressor_state = true ∧
      (tick m now t1 t2).exceeded_max_runtime_at = 0) := by
  refine ⟨?_, ?_, ?_⟩
  · intro m now t1 t2 hh hs hv ht1 ht2 he hon hrt
    have hW : is_within_target_temperature (sensed m t1 t2) = false :=
      decide_eq_false (not_le.mpr ht1)
    have hb := base_decision_not_within_cb (sensed m t1 t2) now hW
    have hbo : is_compressor_overheating (cooling_base (sensed m t1 t2)) = false :=
      decide_eq_false (not_le.mpr ht2)
    have hov := override_eval_maxrt_trigger (cooling_base (sensed m t1 t2)) now
      rfl hbo he hon hrt
    rw [tick_eval m now t1 t2 hh hs hv, hb, hov]
    refine ⟨?_, ?_, ?_, ?_⟩
    · exact (log_state_status _).trans ((set_compressor_status _ _ _).trans rfl)
    · exact (log_state_actual _).trans ((set_compressor_actual _ _ _).trans rfl)
    · exact (log_state_exceeded _).trans ((set_compressor_exceeded _ _ _).trans rfl)
    · exact (log_state_off_at _).trans (set_compressor_false_off_at _ now _ rfl hon)
  · intro m now t1 t2 hh hs hv ht1 ht2 he hoff hd
    have hW : is_within_target_temperature (sensed m t1 t2) = false :=
      decide_eq_false (not_le.mpr ht1)
    have hb := base_decision_not_within_cb (sensed m t1 t2) now hW
    have hbo : is_compressor_overheating (cooling_base (sensed m t1 t2)) = false :=
      decide_eq_false (not_le.mpr ht2)
    have hov := override_eval_maxrt_hold (cooling_base (sensed m t1 t2)) now
      rfl hbo he hd
    rw [tick_eval m now t1 t2 hh hs hv, hb, hov]
    refine ⟨?_, ?_, ?_, ?_⟩
    · exact (log_state_status _).trans ((set_compressor_status _ _ _).trans rfl)
    · exact (log_state_actual _).trans ((set_compressor_actual _ _ _).trans rfl)
    · exact (log_state_exceeded _).trans ((set_compressor_exceeded _ _ _).trans rfl)
    · exact (log_state_off_at _).trans
        ((set_compressor_noop_off_at _ now _ rfl (by exact hoff)).trans rfl)
  · intro m now t1 t2 hh hs hv ht1 ht2 he hoff hd
    have hW : is_within_target_temperature (sensed m t1 t2) = false :=
      decide_eq_false (not_le.mpr ht1)
    have hb := base_decision_not_within_cb (sensed m t1 t2) now hW
    have hbo : is_compressor_overheating (cooling_base (sensed m t1 t2)) = false :=
      decide_eq_false (not_le.mpr ht2)
    have hov := override_eval_maxrt_release (cooling_base (sensed m t1 t2)) now
      rfl hbo he hd
    rw [tick_eval m now t1 t2 hh hs hv, hb, hov]
    refine ⟨?_, ?_, ?_⟩
    · exact (log_state_status _).trans ((set_compressor_status _ _ _).trans rfl)
    · exact (log_state_actual _).trans ((set_compressor_actual _ _ _).trans rfl)
    · exact (log_state_exceeded _).trans ((set_compressor_exceeded _ _ _).trans rfl)

/-- Machine for the trigger phase of the C4 witness: compressor on since boot,
default configuration (max run time 300 minutes). -/
def c4_machine_a : Machine :=
  { test_machine with state.actual_compressor_state := true }

/-- Machine for the hold and release phases of the C4 witness: violation
latched, compressor off since millisecond 1000. -/
def c4_machine_b : Machine :=
  { test_machine with exceeded_max_runtime_at := 5, compressor_turned_off_at := 1000 }

theorem c4_witness :
    ((tick c4_machine_a 18000000 (-10) 20).state.status
        = freezer_status.compressor_max_runtime ∧
      (tick c4_machine_a 18000000 (-10) 20).state.actual_compressor_state = false ∧
      (tick c4_machine_a 18000000 (-10) 20).exceeded_max_runtime_at = 18000000 ∧
      (tick c4_machine_a 18000000 (-10) 20).compressor_turned_off_at = 18000000) ∧
    ((tick c4_machine_b 2000 (-10) 20).state.status
        = freezer_status.compressor_max_runtime ∧
      (tick c4_machine_b 2000 (-10) 20).state.actual_compressor_state = false ∧
      (tick c4_machine_b 2000 (-10) 20).exceeded_max_runtime_at
        = c4_machine_b.exceeded_max_runtime_at ∧
      (tick c4_machine_b 2000 (-10) 20).compressor_turned_off_at
        = c4_machine_b.compressor_turned_off_at) ∧
    ((tick c4_machine_b 400000 (-10) 20).state.status = freezer_status.cooling ∧
      (tick c4_machine_b 400000 (-10) 20).state.actual_compressor_state = true ∧
      (tick c4_machine_b 400000 (-10) 20).exceeded_max_runtime_at = 0) :=
  ⟨c4_max_runtime_override.1 c4_machine_a 18000000 (-10) 20 rfl rfl (by decide)
      (by decide) (by decide) rfl rfl (by decide),
   c4_max_runtime_override.2.1 c4_machine_b 2000 (-10) 20 rfl rfl (by decide)
      (by decide) (by decide) (by decide) rfl (by decide),
   c4_max_runtime_override.2.2 c4_machine_b 400000 (-10) 20 rfl rfl (by decide)
      (by decide) (by decide) (by decide) rfl (by decide)⟩

theorem base_decision_within_eq_gen (m : Machine) (now rt H : ℕ)
    (h : is_within_target_temperature m = true)
    (hrt : (if m.reached_target_temperature_at = 0 then now
            else m.reached_target_temperature_at) = rt)
    (hH : (m.config.target_temperature_hysteresis_time * 1000) % U32 = H) :
    base_decision m now =
      (if millis_diff now rt ≥ H then
        { m with reached_target_temperature_at := rt,
                 state.target_compressor_state := false,
                 state.status := freezer_status.reached_target }
      else
        { m with reached_target_temperature_at := rt,
                 state.target_compressor_state := true,
                 state.status := freezer_status.cooling }) := by
  subst hrt
  subst hH
  exact base_decision_within_eq m now h

/-- C5: target evaluation on a non-halted tick with valid readings past the
startup gate. When the primary reading is at or below target the
target-reached timer starts if it was unset and the commanded state is off
with status ReachedTarget exactly when the hysteresis dwell time has elapsed
since the timer value, otherwise on with status Cooling. When the reading is
above target the timer is cleared and the commanded state is on with status
Cooling. The commanded state of the full tick equals the one computed by this
target-evaluation step. -/
theorem c5_target_evaluation (m : Machine) (now : ℕ) (t1 t2 : ℚ)
    (hh : m.halted = false) (hs : m.startup_delay_over = true)
    (hv : temps_valid t1 t2) :
    (t1 ≤ m.config.target_temperature →
      (base_decision (sensed m t1 t2) now).reached_target_temperature_at
        = (if m.reached_target_temperature_at = 0 then now
           else m.reached_target_temperature_at) ∧
      (millis_diff now (if m.reached_target_temperature_at = 0 then now
            else m.reached_target_temperature_at) ≥
          (m.config.target_temperature_hysteresis_time * 1000) % U32 →
        (base_decision (sensed m t1 t2) now).state.target_compressor_state = false ∧
        (base_decision (sensed m t1 t2) now).state.status
          = freezer_status.reached_target) ∧
      (millis_diff now (if m.reached_target_temperature_at = 0 then now
            else m.reached_target_temperature_at) <
          (m.config.target_temperature_hysteresis_time * 1000) % U32 →
        (base_decision (sensed m t1 t2) now).state.target_compressor_state = true ∧
        (base_decision (sensed m t1 t2) now).state.status = freezer_status.cooling)) ∧
    (¬ t1 ≤ m.config.target_temperature →
      (base_decision (sensed m t1 t2) now).reached_target_temperature_at = 0 ∧
      (base_decision (sensed m t1 t2) now).state.target_compressor_state = true ∧
      (base_decision (sensed m t1 t2) now).state.status = freezer_status.cooling) ∧
    (tick m now t1 t2).state.target_compressor_state
      = (base_decision (sensed m t1 t2) now).state.target_compressor_state := by
  refine ⟨?_, ?_, ?_⟩
  · intro hin
    have hW : is_within_target_temperature (sensed m t1 t2) = true :=
      decide_eq_true hin
    have hb := base_decision_within_eq_gen (sensed m t1 t2) now
      (if m.reached_target_temperature_at = 0 then now
       else m.reached_target_temperature_at)
      ((m.config.target_temperature_hysteresis_time * 1000) % U32) hW rfl rfl
    by_cases hc : millis_diff now (if m.reached_target_temperature_at = 0 then now
        else m.reached_target_temperature_at) ≥
        (m.config.target_temperature_hysteresis_time * 1000) % U32
    · rw [if_pos hc] at hb
      rw [hb]
      exact ⟨rfl, fun _ => ⟨rfl, rfl⟩, fun hlt => absurd hc (not_le.mpr hlt)⟩
    · rw [if_neg hc] at hb
      rw [hb]
      exact ⟨rfl, fun hge => absurd hge hc, fun _ => ⟨rfl, rfl⟩⟩
  · intro hout
    have hW : is_within_target_temperature (sensed m t1 t2) = false :=
      decide_eq_false hout
    rw [base_decision_not_within_cb (sensed m t1 t2) now hW]
    exact ⟨rfl, rfl, rfl⟩
  · rw [tick_eval m now t1 t2 hh hs hv, log_state_target, set_compressor_target,
      override_eval_target]

theorem c5_witness :
    ((-20 : ℚ) ≤ test_machine.config.target_temperature →
      (base_decision (sensed test_machine (-20) 20) 1000).reached_target_temperature_at
        = (if test_machine.reached_target_temperature_at = 0 then 1000
           else test_machine.reached_target_temperature_at) ∧
      (millis_diff 1000 (if test_machine.reached_target_temperature_at = 0 then 1000
            else test_machine.reached_target_temperature_at) ≥
          (test_machine.config.target_temperature_hysteresis_time * 1000) % U32 →
        (base_decision (sensed test_machine (-20) 20) 1000).state.target_compressor_state
          = false ∧
        (base_decision (sensed test_machine (-20) 20) 1000).state.status
          = freezer_status.reached_target) ∧
      (millis_diff 1000 (if test_machine.reached_target_temperature_at = 0 then 1000
            else test_machine.reached_target_temperature_at) <
          (test_machine.config.target_temperature_hysteresis_time * 1000) % U32 →
        (base_decision (sensed test_machine (-20) 20) 1000).state.target_compressor_state
          = true ∧
        (base_decision (sensed test_machine (-20) 20) 1000).state.status
          = freezer_status.cooling)) ∧
    (¬ (-20 : ℚ) ≤ test_machine.config.target_temperature →
      (base_decision (sensed test_machine (-20) 20) 1000).reached_target_temperature_at
        = 0 ∧
      (base_decision (sensed test_machine (-20) 20) 1000).state.target_compressor_state
        = true ∧
      (base_decision (sensed test_machine (-20) 20) 1000).state.status
        = freezer_status.cooling) ∧
    (tick test_machine 1000 (-20) 20).state.target_compressor_state
      = (base_decision (sensed test_machine (-20) 20) 1000).state.target_compressor_state :=
  c5_target_evaluation test_machine 1000 (-20) 20 rfl rfl (by decide)

/-- C6 (amended): every non-halting tick with logging enabled hands exactly
one record to the Record Log, on the startup-gate branch as well as the
normal branch; the halting tick hands over none (halt() is reached before
log_state and never returns), and after the halted state is entered no
further tick changes anything. -/
theorem c6_one_log_per_tick (m : Machine) (now : ℕ) (t1 t2 : ℚ)
    (hh : m.halted = false) (hl : m.logging_enabled = true) :
    (temps_valid t1 t2 → (tick m now t1 t2).log_count = m.log_count + 1) ∧
    (¬ temps_valid t1 t2 →
      (tick m now t1 t2).log_count = m.log_count ∧ (tick m now t1 t2).halted = true) ∧
    (∀ m' : Machine, m'.halted = true → ∀ l : List (ℕ × ℚ × ℚ), run m' l = m') := by
  refine ⟨?_, ?_, ?_⟩
  · intro hv
    by_cases hsd : m.startup_delay_over = true
    · rw [tick_eval m now t1 t2 hh hsd hv]
      have hlg : (set_compressor (override_eval (base_decision (sensed m t1 t2) now) now).1
          now ((override_eval (base_decision (sensed m t1 t2) now) now).1.state.target_compressor_state &&
            !(override_eval (base_decision (sensed m t1 t2) now) now).2)).logging_enabled = true := by
        rw [set_compressor_logging, override_eval_logging, base_decision_logging]
        exact hl
      rw [log_state_log _ hlg, set_compressor_log, override_eval_log, base_decision_log]
      rfl
    · have hsd' : m.startup_delay_over = false := by
        cases hx : m.startup_delay_over
        · rfl
        · exact absurd hx hsd
      rw [tick_not_halted m now t1 t2 hh, update_state_startup m now t1 t2 hv hsd']
      have hlg : ({ sensed m t1 t2 with
          startup_delay_over := is_startup_delay_over (sensed m t1 t2) now,
          state.status := freezer_status.startup_delay } : Machine).logging_enabled = true := hl
      rw [log_state_log _ hlg]
      rfl
  · intro hnv
    have hf : t1 < -100 ∨ t1 > 100 ∨ t2 > 100 := by
      by_cases ha : t1 < -100
      · exact Or.inl ha
      by_cases hb : t1 > 100
      · exact Or.inr (Or.inl hb)
      by_cases hc : t2 > 100
      · exact Or.inr (Or.inr hc)
      · exact absurd ⟨not_lt.mp ha, not_lt.mp hb, not_lt.mp hc⟩ hnv
    rw [tick_not_halted m now t1 t2 hh, update_state_halt m now t1 t2 hf]
    constructor
    · show (set_compressor (sensed m t1 t2) now false).log_count = m.log_count
      rw [set_compressor_log]
      rfl
    · rfl
  · intro m' hm' l
    exact run_halted m' hm' l

theorem c6_witness :
    ((tick test_machine 1000 (-20) 20).log_count = test_machine.log_count + 1) ∧
    ((tick test_machine 2000 150 20).log_count = test_machine.log_count ∧
      (tick test_machine 2000 150 20).halted = true) ∧
    (run { test_machine with halted := true } [(3000, 0, 0)]
      = { test_machine with halted := true }) :=
  ⟨(c6_one_log_per_tick test_machine 1000 (-20) 20 rfl rfl).1 (by decide),
   (c6_one_log_per_tick test_machine 2000 150 20 rfl rfl).2.1 (by decide),
   (c6_one_log_per_tick test_machine 2000 150 20 rfl rfl).2.2
     { test_machine with halted := true } rfl [(3000, 0, 0)]⟩

/-- C6 (counterexample): the halting tick does not append a record. A machine
with logging enabled that reads 150 degrees on the primary sensor halts
without handing anything to the Record Log, so the claim that every tick, the
halt branch included, appends exactly one record is false. -/
theorem c6_counterexample :
    (tick test_machine 1000 150 20).log_count ≠ test_machine.log_count + 1 := by
  decide

/-- C10: whenever compressor_turned_off_at holds the sentinel 0, the dead-time
check reports the dead time as elapsed no matter what dead time is
configured, so on such a tick the DeadTime override cannot fire; and a
turn-on edge of set_compressor clears compressor_turned_off_at back to the
sentinel. -/
theorem c10_dead_time_sentinel (m : Machine) (now : ℕ) (t1 t2 : ℚ)
    (h0 : m.compressor_turned_off_at = 0) :
    has_dead_time_elapsed m now = true ∧
    (m.halted = false → m.startup_delay_over = true → temps_valid t1 t2 →
      (tick m now t1 t2).state.status ≠ freezer_status.dead_time) ∧
    (m.state.actual_compressor_state = false →
      (set_compressor m now true).compressor_turned_off_at = 0) := by
  have hde : has_dead_time_elapsed m now = true := by
    simp [has_dead_time_elapsed, h0]
  refine ⟨hde, ?_, ?_⟩
  · intro hh hs hv
    have hst : (tick m now t1 t2).state.status
        = (override_eval (base_decision (sensed m t1 t2) now) now).1.state.status := by
      rw [tick_eval m now t1 t2 hh hs hv, log_state_status, set_compressor_status]
    rw [hst]
    have hdb : has_dead_time_elapsed (base_decision (sensed m t1 t2) now) now = true := by
      rw [has_dead_time_elapsed_congr (base_decision (sensed m t1 t2) now) m now
        (by rw [base_decision_off_at]; rfl) (by rw [base_decision_config]; rfl)]
      exact hde
    have hsb : (base_decision (sensed m t1 t2) now).state.status ≠ freezer_status.dead_time := by
      rcases base_decision_status (sensed m t1 t2) now with h | h <;> rw [h] <;> decide
    exact override_eval_status_ne_dead_time _ now hdb hsb
  · intro ha
    rw [set_compressor_turn_on m now ha]

theorem c10_witness :
    has_dead_time_elapsed test_machine 7000 = true ∧
    ((tick test_machine 7000 (-10) 20).state.status ≠ freezer_status.dead_time) ∧
    ((set_compressor test_machine 7000 true).compressor_turned_off_at = 0) := by
  have h := c10_dead_time_sentinel test_machine 7000 (-10) 20 rfl
  exact ⟨h.1, h.2.1 rfl rfl (by decide), h.2.2 rfl⟩

/-- C7 (counterexample): when block 1 is the side whose checksum matches
(count 5 valid there, block 0 holds count 3 with a bad checksum), the heal
write that save_data_point issues targets block 1 with the winner value; no
write carrying the winner value 5 is ever issued to the losing block 0, which
refutes the claim that the losing block is rewritten to match the winner
before the increment. -/
theorem c7_counterexample :
    (save_data_point ⟨3, 0⟩ ⟨5, count_crc 5⟩).head?
      = some (sd_write.meta 1 ⟨5, count_crc 5⟩) ∧
    sd_write.meta 0 ⟨5, count_crc 5⟩ ∉ save_data_point ⟨3, 0⟩ ⟨5, count_crc 5⟩ ∧
    (0 : ℕ) ≠ count_crc 3 := by
  decide

/-- C7 (amended): when the two metadata counts disagree, save_data_point picks
the winner by checksum validity with block 0 preferred, issues the heal write
to block 1 carrying the winner value (the losing block, when it is block 0, is
not separately healed and only receives the incremented count in the next
step), then writes winner count + 1 with its recomputed checksum to both
blocks 0 and 1 and the record to block new count + 2. In particular Scenario
E holds: block 0 count 5 with valid checksum against block 1 count 3 with any
invalid checksum heals block 1 to 5 and advances both blocks to 6, with the
record at block 8. -/
theorem c7_append_metadata_protocol :
    (∀ s0 s1 : sd_count_sector, s0.count ≠ s1.count →
      save_data_point s0 s1 =
        [sd_write.meta 1 (metadata_winner s0 s1),
         sd_write.meta 0 ⟨((metadata_winner s0 s1).count + 1) % U32,
            count_crc (((metadata_winner s0 s1).count + 1) % U32)⟩,
         sd_write.meta 1 ⟨((metadata_winner s0 s1).count + 1) % U32,
            count_crc (((metadata_winner s0 s1).count + 1) % U32)⟩,
         sd_write.record ((((metadata_winner s0 s1).count + 1) % U32 + 2) % U32)]) ∧
    (∀ x : ℕ, x ≠ count_crc 3 →
      save_data_point ⟨5, count_crc 5⟩ ⟨3, x⟩ =
        [sd_write.meta 1 ⟨5, count_crc 5⟩,
         sd_write.meta 0 ⟨6, count_crc 6⟩,
         sd_write.meta 1 ⟨6, count_crc 6⟩,
         sd_write.record 8]) := by
  constructor
  · intro s0 s1 h
    by_cases h1 : s0.crc = count_crc s0.count
    · simp [save_data_point, metadata_winner, h, h1]
    · by_cases h2 : s1.crc = count_crc s1.count
      · simp [save_data_point, metadata_winner, h, h1, h2]
      · simp [save_data_point, metadata_winner, h, h1, h2]
  · intro x hx
    norm_num [save_data_point, U32, hx]

theorem c7_witness :
    (save_data_point ⟨1, 0⟩ ⟨2, 0⟩ =
      [sd_write.meta 1 (metadata_winner ⟨1, 0⟩ ⟨2, 0⟩),
       sd_write.meta 0 ⟨((metadata_winner ⟨1, 0⟩ ⟨2, 0⟩).count + 1) % U32,
          count_crc (((metadata_winner ⟨1, 0⟩ ⟨2, 0⟩).count + 1) % U32)⟩,
       sd_write.meta 1 ⟨((metadata_winner ⟨1, 0⟩ ⟨2, 0⟩).count + 1) % U32,
          count_crc (((metadata_winner ⟨1, 0⟩ ⟨2, 0⟩).count + 1) % U32)⟩,
       sd_write.record ((((metadata_winner ⟨1, 0⟩ ⟨2, 0⟩).count + 1) % U32 + 2) % U32)]) ∧
    (save_data_point ⟨5, count_crc 5⟩ ⟨3, 0⟩ =
      [sd_write.meta 1 ⟨5, count_crc 5⟩,
       sd_write.meta 0 ⟨6, count_crc 6⟩,
       sd_write.meta 1 ⟨6, count_crc 6⟩,
       sd_write.record 8]) :=
  ⟨c7_append_metadata_protocol.1 ⟨1, 0⟩ ⟨2, 0⟩ (by decide),
   c7_append_metadata_protocol.2 0 (by decide)⟩

/-- Byte stream of a storage card that signals busy (0x00) forever. -/
def busy_stream : ℕ → ℕ := fun _ => 0x00

/-- Millisecond counter observed at each poll: already 301 ms past the start,
so the 300 ms busy-wait deadline has expired at the very first poll. -/
def slow_times : ℕ → ℕ := fun _ => 301

/-- C8 (counterexample): against a card that stays busy past the 300 ms
deadline, the busy wait inside send_card_command does time out (reified
result some false), yet the 6-byte command frame is emitted anyway, and the
source function returns void, so no failure reaches the caller; this refutes
the claim that on timeout send_card_command returns failure without emitting
the frame. -/
theorem c8_counterexample :
    (send_card_command 17 0 1 busy_stream slow_times 0 5).1 = some false ∧
    (send_card_command 17 0 1 busy_stream slow_times 0 5).2
      = [0x51, 0x00, 0x00, 0x00, 0x00, 0x01] ∧
    (send_card_command 17 0 1 busy_stream slow_times 0 5).2 ≠ [] := by
  decide

/-- C8 (amended): send_card_command performs the 300 ms bounded busy wait,
and that wait does report the timeout (it yields false when the device never
signals idle before the deadline), but send_card_command discards this result
and emits the fixed 6-byte frame unconditionally, reporting nothing to its
caller. -/
theorem c8_send_command_ignores_timeout :
    (∀ (cmd arg crc : ℕ) (stream times : ℕ → ℕ) (start fuel : ℕ),
      (send_card_command cmd arg crc stream times start fuel).2
        = command_frame cmd arg crc) ∧
    (∀ (cmd arg crc : ℕ) (stream times : ℕ → ℕ) (start fuel : ℕ),
      (∀ j, stream j ≠ 0xFF) →
      (∃ j, j < fuel ∧ millis_diff (times j) start > 300) →
      (send_card_command cmd arg crc stream times start fuel).1 = some false) := by
  refine ⟨fun _ _ _ _ _ _ _ => rfl, ?_⟩
  intro cmd arg crc stream times start fuel hs hex
  show wait_card_busy stream times start 0 fuel = some false
  apply wait_card_busy_timeout stream times start hs fuel 0
  obtain ⟨j, h1, h2⟩ := hex
  exact ⟨j, Nat.zero_le j, by omega, h2⟩

theorem c8_witness :
    (send_card_command 24 7 1 busy_stream slow_times 0 3).2 = command_frame 24 7 1 ∧
    (send_card_command 24 7 1 busy_stream slow_times 0 3).1 = some false :=
  ⟨c8_send_command_ignores_timeout.1 24 7 1 busy_stream slow_times 0 3,
   c8_send_command_ignores_timeout.2 24 7 1 busy_stream slow_times 0 3
     (fun j => by simp [busy_stream]) ⟨0, by decide, by decide⟩⟩
